import Mathlib

/-!
Verification of the portfolio static-site generator's rendering core:
the Markdown-to-HTML converter of `build-posts.js` and the Notion-style
block renderer of the page generator script.

JavaScript strings are modelled as `List Char` (wrapped in `String` at the
outer interfaces).  Each global regex replace of the source is modelled by
a dedicated scanner that mirrors the regex's semantics: scan left to
right, attempt the pattern at each position, emit the replacement and
continue after the match on success (the replacement is never rescanned),
advance one character on failure.  Scanners use an explicit fuel argument
`length + 1`; every successful step consumes at least one character, so
the fuel never runs out on the initial call.
-/

namespace Portfolio

/-- JavaScript `\s` character class (WhiteSpace and LineTerminator). -/
def isJsSpace (c : Char) : Bool :=
  c = ' ' ∨ c = '\t' ∨ c = '\n' ∨ c = '\x0b' ∨ c = '\x0c' ∨ c = '\r' ∨
  c = '\u00A0' ∨ c = '\u1680' ∨ ('\u2000' ≤ c ∧ c ≤ '\u200A') ∨
  c = '\u2028' ∨ c = '\u2029' ∨ c = '\u202F' ∨ c = '\u205F' ∨
  c = '\u3000' ∨ c = '\uFEFF'

/-- JavaScript `\w` character class. -/
def isWordChar (c : Char) : Bool :=
  c.isAlpha ∨ c.isDigit ∨ c = '_'

/-- Model of `str.replace(/c/g, r)` for a single-character pattern `c`. -/
def replaceChar (c : Char) (r : List Char) : List Char → List Char
  | [] => []
  | x :: xs => (if x = c then r else [x]) ++ replaceChar c r xs

/-- Steps 1-3 of `markdownToHtml` (build-posts.js lines 33-35): escape
`&`, `<`, `>` globally, in that order.  `"` is not escaped here. -/
def mdEscape (l : List Char) : List Char :=
  replaceChar '>' "&gt;".data (replaceChar '<' "&lt;".data (replaceChar '&' "&amp;".data l))

/-- Core of the page generator's `escapeHtml` helper: the same three
replacements followed by `"` ↦ `&quot;`. -/
def escapeHtmlL (l : List Char) : List Char :=
  replaceChar '\x22' "&quot;".data (mdEscape l)

/-- Function `escapeHtml` from the page generator script (lines 230-236). -/
def escapeHtml (text : String) : String :=
  String.mk (escapeHtmlL text.data)

/-- Characterisation helper (from the spec's words): apply a
character-to-string map to every character and concatenate. -/
def charwiseEscape (f : Char → List Char) : List Char → List Char
  | [] => []
  | c :: rest => f c ++ charwiseEscape f rest

/-- What the spec says the Markdown escape does per character:
`&`, `<`, `>` become entities, everything else (including `"`) is kept. -/
def mdEscapeChar (c : Char) : List Char :=
  if c = '&' then "&amp;".data
  else if c = '<' then "&lt;".data
  else if c = '>' then "&gt;".data
  else [c]

/-- What the spec says `escapeHtml` does per character: additionally `"`
becomes `&quot;`. -/
def escapeHtmlChar (c : Char) : List Char :=
  if c = '&' then "&amp;".data
  else if c = '<' then "&lt;".data
  else if c = '>' then "&gt;".data
  else if c = '\x22' then "&quot;".data
  else [c]

lemma replaceChar_append (c : Char) (r : List Char) (a b : List Char) :
    replaceChar c r (a ++ b) = replaceChar c r a ++ replaceChar c r b := by
  induction a with
  | nil => rfl
  | cons x xs ih => simp [replaceChar, ih]

lemma mdEscape_cons (c : Char) (l : List Char) :
    mdEscape (c :: l) = mdEscapeChar c ++ mdEscape l := by
  by_cases hamp : c = '&'
  · subst hamp; simp [mdEscape, replaceChar, replaceChar_append, mdEscapeChar]
  · by_cases hlt : c = '<'
    · subst hlt; simp [mdEscape, replaceChar, replaceChar_append, mdEscapeChar]
    · by_cases hgt : c = '>'
      · subst hgt; simp [mdEscape, replaceChar, replaceChar_append, mdEscapeChar]
      · simp [mdEscape, replaceChar, replaceChar_append, mdEscapeChar, hamp, hlt, hgt]

lemma mdEscape_eq_charwise (l : List Char) :
    mdEscape l = charwiseEscape mdEscapeChar l := by
  induction l with
  | nil => rfl
  | cons c rest ih => rw [mdEscape_cons, ih]; rfl

lemma escapeHtmlL_cons (c : Char) (l : List Char) :
    escapeHtmlL (c :: l) = escapeHtmlChar c ++ escapeHtmlL l := by
  rw [escapeHtmlL, mdEscape_cons, replaceChar_append]
  have hgoal : replaceChar '\x22' "&quot;".data (mdEscapeChar c) = escapeHtmlChar c := by
    by_cases hamp : c = '&'
    · subst hamp; rfl
    · by_cases hlt : c = '<'
      · subst hlt; rfl
      · by_cases hgt : c = '>'
        · subst hgt; rfl
        · by_cases hq : c = '\x22'
          · subst hq; simp [mdEscapeChar, escapeHtmlChar, replaceChar]
          · simp [mdEscapeChar, escapeHtmlChar, replaceChar, hamp, hlt, hgt, hq]
  rw [hgoal]; rfl

lemma escapeHtmlL_eq_charwise (l : List Char) :
    escapeHtmlL l = charwiseEscape escapeHtmlChar l := by
  induction l with
  | nil => rfl
  | cons c rest ih => rw [escapeHtmlL_cons, ih]; rfl

/-- Generic model of a global regex replace.  `step` attempts the pattern
at the current position and, on success, returns the replacement text and
the remainder after the match. -/
def goScan (step : List Char → Option (List Char × List Char)) :
    Nat → List Char → List Char
  | 0, l => l
  | _ + 1, [] => []
  | fuel + 1, c :: rest =>
    match step (c :: rest) with
    | some (out, rem) => out ++ goScan step fuel rem
    | none => c :: goScan step fuel rest

def runScan (step : List Char → Option (List Char × List Char))
    (l : List Char) : List Char :=
  goScan step (l.length + 1) l

/-- Does `step` match at some position of `l`?  (`runScan step` is the
identity exactly when it does not.) -/
def scanMatches (step : List Char → Option (List Char × List Char)) :
    List Char → Bool
  | [] => false
  | c :: rest => (step (c :: rest)).isSome || scanMatches step rest

/-- Variant for regexes anchored at `^` under the `m` flag: the pattern is
attempted only at the start of the string and right after a newline. -/
def goScanLine (step : List Char → Option (List Char × List Char)) :
    Nat → Bool → List Char → List Char
  | 0, _, l => l
  | _ + 1, _, [] => []
  | fuel + 1, atStart, c :: rest =>
    if atStart then
      match step (c :: rest) with
      | some (out, rem) => out ++ goScanLine step fuel false rem
      | none => c :: goScanLine step fuel (c = '\n') rest
    else c :: goScanLine step fuel (c = '\n') rest

def runScanLine (step : List Char → Option (List Char × List Char))
    (l : List Char) : List Char :=
  goScanLine step (l.length + 1) true l

/-- Lazy search for a single closing character (`(.*?)close` where `.`
does not match a newline): returns the content before the first `close`
and the remainder after it. -/
def findClose1 (close : Char) : List Char → Option (List Char × List Char)
  | [] => none
  | c :: rest =>
    if c = close then some ([], rest)
    else if c = '\n' then none
    else (findClose1 close rest).map (fun p => (c :: p.1, p.2))

/-- Lazy search for a doubled closing character (`(.*?)\*\*`). -/
def findClose2 (close : Char) : List Char → Option (List Char × List Char)
  | c :: d :: rest =>
    if c = close ∧ d = close then some ([], rest)
    else if c = '\n' then none
    else (findClose2 close (d :: rest)).map (fun p => (c :: p.1, p.2))
  | _ => none

/-- Lazy search for a closing triple backtick (`([\s\S]*?)` + three
backticks: any character, including newlines, may precede it). -/
def findTriple : List Char → Option (List Char × List Char)
  | '\x60' :: '\x60' :: '\x60' :: rest => some ([], rest)
  | c :: rest => (findTriple rest).map (fun p => (c :: p.1, p.2))
  | [] => none

/-- Pattern `/\*\*(.*?)\*\*/g` ↦ `<strong>$1</strong>`. -/
def stepBold (l : List Char) : Option (List Char × List Char) :=
  match l with
  | '*' :: '*' :: rest =>
    (findClose2 '*' rest).map
      (fun p => ("<strong>".data ++ p.1 ++ "</strong>".data, p.2))
  | _ => none

/-- Pattern `/\*(.*?)\*/g` ↦ `<em>$1</em>`. -/
def stepItalic (l : List Char) : Option (List Char × List Char) :=
  match l with
  | '*' :: rest =>
    (findClose1 '*' rest).map
      (fun p => ("<em>".data ++ p.1 ++ "</em>".data, p.2))
  | _ => none

/-- Inline code: backtick-delimited span ↦ `<code>$1</code>`. -/
def stepInlineCode (l : List Char) : Option (List Char × List Char) :=
  match l with
  | '\x60' :: rest =>
    (findClose1 '\x60' rest).map
      (fun p => ("<code>".data ++ p.1 ++ "</code>".data, p.2))
  | _ => none

/-- Fenced code block: three backticks, an optional language word, a
newline, then a lazy body up to the closing three backticks.  The
replacement `<pre><code>$2</code></pre>` drops the language. -/
def stepCodeBlock (l : List Char) : Option (List Char × List Char) :=
  match l with
  | '\x60' :: '\x60' :: '\x60' :: rest =>
    match rest.dropWhile isWordChar with
    | '\n' :: r3 =>
      (findTriple r3).map
        (fun p => ("<pre><code>".data ++ p.1 ++ "</code></pre>".data, p.2))
    | _ => none
  | _ => none

/-- Pattern `/\[([^\]]+)\]\(([^)]+)\)/g`: a bracketed label (one or more
non-`]` characters) immediately followed by a parenthesised url (one or
more non-`)` characters). -/
def tryLink (l : List Char) : Option (List Char × List Char × List Char) :=
  match l with
  | '[' :: rest =>
    let label := rest.takeWhile (· ≠ ']')
    match rest.dropWhile (· ≠ ']') with
    | ']' :: '(' :: r2 =>
      if label.isEmpty then none
      else
        let url := r2.takeWhile (· ≠ ')')
        match r2.dropWhile (· ≠ ')') with
        | ')' :: r3 => if url.isEmpty then none else some (label, url, r3)
        | _ => none
    | _ => none
  | _ => none

/-- The link replacement.  The page generator adds `class="text-link"`
(`withClass = true`); the blog converter does not. -/
def stepLink (withClass : Bool) (l : List Char) :
    Option (List Char × List Char) :=
  (tryLink l).map (fun p =>
    ("<a href=\x22".data ++ p.2.1 ++
      (if withClass then "\x22 class=\x22text-link\x22>".data else "\x22>".data) ++
      p.1 ++ "</a>".data, p.2.2))

/-- Function `processInlineFormatting` (page generator, lines 238-245): bold,
italic, inline code, then links (with `class="text-link"`), in that
order.  A missing (`none`) or empty argument yields the empty string. -/
def processInlineFormatting (text : Option String) : String :=
  match text with
  | none => ""
  | some t =>
    if t.isEmpty then ""
    else
      String.mk (runScan (stepLink true)
        (runScan stepInlineCode (runScan stepItalic (runScan stepBold t.data))))

/-- Header line transform for `^### (.*$)/gim` (per line: the pattern
consumes `### ` and captures the rest of the line). -/
def h3Line (line : List Char) : List Char :=
  if "### ".data.isPrefixOf line then "<h3>".data ++ line.drop 4 ++ "</h3>".data
  else line

def h2Line (line : List Char) : List Char :=
  if "## ".data.isPrefixOf line then "<h2>".data ++ line.drop 3 ++ "</h2>".data
  else line

def h1Line (line : List Char) : List Char :=
  if "# ".data.isPrefixOf line then "<h1>".data ++ line.drop 2 ++ "</h1>".data
  else line

/-- Pattern `^---$/gim`: a line consisting exactly of `---` becomes `<hr>`. -/
def hrLine (line : List Char) : List Char :=
  if line = "---".data then "<hr>".data else line

/-- Apply a transform to every newline-separated line (for regexes whose
pattern cannot cross a newline). -/
def goLines (f : List Char → List Char) : Nat → List Char → List Char
  | 0, l => l
  | fuel + 1, l =>
    let line := l.takeWhile (· ≠ '\n')
    match l.dropWhile (· ≠ '\n') with
    | [] => f line
    | _ :: rest => f line ++ '\n' :: goLines f fuel rest

def lineMap (f : List Char → List Char) (l : List Char) : List Char :=
  goLines f (l.length + 1) l

/-- Pattern `^\s*[-*]\s+(.*$)` attempted at a line start: optional whitespace
(which, as JavaScript `\s` includes newlines, may swallow line breaks),
a bullet character, at least one whitespace character, then the rest of
the current line. -/
def stepUL (l : List Char) : Option (List Char × List Char) :=
  match l.dropWhile isJsSpace with
  | c :: r2 =>
    if c = '-' ∨ c = '*' then
      match r2 with
      | d :: _ =>
        if isJsSpace d then
          let r3 := r2.dropWhile isJsSpace
          some ("<li>".data ++ r3.takeWhile (· ≠ '\n') ++ "</li>".data,
            r3.dropWhile (· ≠ '\n'))
        else none
      | [] => none
    else none
  | [] => none

/-- Pattern `^\s*\d+\.\s+(.*$)` attempted at a line start. -/
def stepOL (l : List Char) : Option (List Char × List Char) :=
  let r1 := l.dropWhile isJsSpace
  if (r1.takeWhile Char.isDigit).isEmpty then none
  else
    match r1.dropWhile Char.isDigit with
    | '.' :: r3 =>
      match r3 with
      | d :: _ =>
        if isJsSpace d then
          let r4 := r3.dropWhile isJsSpace
          some ("<li>".data ++ r4.takeWhile (· ≠ '\n') ++ "</li>".data,
            r4.dropWhile (· ≠ '\n'))
        else none
      | [] => none
    | _ => none

/-- Pattern `^>\s+(.*$)` attempted at a line start. -/
def stepBQ (l : List Char) : Option (List Char × List Char) :=
  match l with
  | '>' :: r1 =>
    match r1 with
    | d :: _ =>
      if isJsSpace d then
        let r2 := r1.dropWhile isJsSpace
        some ("<blockquote>".data ++ r2.takeWhile (· ≠ '\n') ++ "</blockquote>".data,
          r2.dropWhile (· ≠ '\n'))
      else none
    | [] => none
  | _ => none

/-- Pattern `/\n\n/g` ↦ `</p><p>`. -/
def stepPara (l : List Char) : Option (List Char × List Char) :=
  match l with
  | '\n' :: '\n' :: rest => some ("</p><p>".data, rest)
  | _ => none

/-- Pattern `/<p><\/p>/g` ↦ the empty string. -/
def stepPEmpty (l : List Char) : Option (List Char × List Char) :=
  match l with
  | '<' :: 'p' :: '>' :: '<' :: '/' :: 'p' :: '>' :: rest => some ([], rest)
  | _ => none

/-- Patterns of the shape `A\s*B` ↦ `out` used by the cleanup passes. -/
def stepFuse (pa pb out : List Char) (l : List Char) :
    Option (List Char × List Char) :=
  if pa.isPrefixOf l then
    let r2 := (l.drop pa.length).dropWhile isJsSpace
    if pb.isPrefixOf r2 then some (out, r2.drop pb.length) else none
  else none

/-- Pattern `/<\/h(\d)>\s*<\/p>/g` ↦ `</h$1>`. -/
def stepHClose (l : List Char) : Option (List Char × List Char) :=
  match l with
  | '<' :: '/' :: 'h' :: d :: '>' :: r1 =>
    if d.isDigit then
      let r2 := r1.dropWhile isJsSpace
      if "</p>".data.isPrefixOf r2 then
        some ("</h".data ++ [d] ++ ">".data, r2.drop 4)
      else none
    else none
  | _ => none

/-- Pattern `/<p>\s*<hr>\s*<\/p>/g` ↦ `<hr>`. -/
def stepHrFuse (l : List Char) : Option (List Char × List Char) :=
  match l with
  | '<' :: 'p' :: '>' :: r1 =>
    let r2 := r1.dropWhile isJsSpace
    if "<hr>".data.isPrefixOf r2 then
      let r3 := (r2.drop 4).dropWhile isJsSpace
      if "</p>".data.isPrefixOf r3 then some ("<hr>".data, r3.drop 4) else none
    else none
  | _ => none

/-- Lazy search for the literal `</li>`. -/
def findLiClose : List Char → Option (List Char × List Char)
  | '<' :: '/' :: 'l' :: 'i' :: '>' :: rest => some ([], rest)
  | c :: rest => (findLiClose rest).map (fun p => (c :: p.1, p.2))
  | [] => none

/-- One `<li>(lazy)</li>` group of `/(<li>.*?<\/li>)+/gs`, returning the
matched text and the remainder. -/
def liGroup (l : List Char) : Option (List Char × List Char) :=
  match l with
  | '<' :: 'l' :: 'i' :: '>' :: rest =>
    (findLiClose rest).map
      (fun p => ("<li>".data ++ p.1 ++ "</li>".data, p.2))
  | _ => none

/-- Greedily take one or more adjacent `<li>…</li>` groups. -/
def goLiRun : Nat → List Char → Option (List Char × List Char)
  | 0, _ => none
  | fuel + 1, l =>
    match liGroup l with
    | some (m, rem) =>
      match goLiRun fuel rem with
      | some (more, rem2) => some (m ++ more, rem2)
      | none => some (m, rem)
    | none => none

/-- Pattern `/(<li>.*?<\/li>)+/gs` ↦ `<ul>$&</ul>`: a maximal run of adjacent
list items is wrapped in a single `<ul>`. -/
def stepLiWrap (l : List Char) : Option (List Char × List Char) :=
  (goLiRun (l.length + 1) l).map
    (fun p => ("<ul>".data ++ p.1 ++ "</ul>".data, p.2))

/-- Function `markdownToHtml` (build-posts.js lines 28-80). -/
def markdownToHtml (markdown : String) : String :=
  if markdown.isEmpty then ""
  else
    let s1 := mdEscape markdown.data
    let s2 := lineMap h3Line s1
    let s3 := lineMap h2Line s2
    let s4 := lineMap h1Line s3
    let s5 := runScan stepBold s4
    let s6 := runScan stepItalic s5
    let s7 := runScan stepCodeBlock s6
    let s8 := runScan stepInlineCode s7
    let s9 := runScan (stepLink false) s8
    let s10 := runScanLine stepUL s9
    let s11 := runScanLine stepOL s10
    let s12 := runScanLine stepBQ s11
    let s13 := lineMap hrLine s12
    let s14 := runScan stepPara s13
    let s15 := replaceChar '\n' "<br>".data s14
    let w := "<p>".data ++ s15 ++ "</p>".data
    let c1 := runScan stepPEmpty w
    let c2 := runScan (stepFuse "<p>".data "<h".data "<h".data) c1
    let c3 := runScan stepHClose c2
    let c4 := runScan stepHrFuse c3
    let c5 := runScan (stepFuse "<p>".data "<pre>".data "<pre>".data) c4
    let c6 := runScan (stepFuse "</pre>".data "</p>".data "</pre>".data) c5
    let c7 := runScan (stepFuse "<p>".data "<blockquote>".data "<blockquote>".data) c6
    let c8 := runScan (stepFuse "</blockquote>".data "</p>".data "</blockquote>".data) c7
    let c9 := runScan stepLiWrap c8
    String.mk c9

/-! ## The Notion-style block model

Blocks are dynamic JSON objects in the source; they are modelled as one
constructor carrying every field any renderer reads.  A missing scalar
field is `none`.  JavaScript truthiness on strings (`undefined`, `null`
and `""` are falsy) is `truthy`; interpolating a missing field into a
template literal prints `undefined`, which is `interp`. -/

/-- A `bulletList`/`numberedList` item: a plain string, or a record with
a `lead` and an optional `text`. -/
inductive Item : Type where
  | str (s : String)
  | obj (lead : Option String) (text : Option String)

/-- A `gallery` card. -/
structure Card : Type where
  href : Option String
  cover : Option String
  title : Option String
  icon : Option String
  subtitle : Option String
  description : Option String

mutual

inductive Block : Type where
  | mk (type : String)
       (gradient src alt emoji style text icon background attribution
        title number href target code caption height : Option String)
       (items : List Item) (cards : List Card)
       (content : BContent) (columns : List Column) (blocks : List Block)

/-- A block's `content` field: absent, a string, or an array of blocks
(the source dispatches on `Array.isArray(block.content)`). -/
inductive BContent : Type where
  | undef : BContent
  | str : String → BContent
  | arr : List Block → BContent

/-- A `columns`/`threeColumns` column: `{style?, blocks}`. -/
inductive Column : Type where
  | mk (style : Option String) (blocks : List Block)

end

def Block.type : Block → String
  | .mk ty _ _ _ _ _ _ _ _ _ _ _ _ _ _ _ _ _ _ _ _ _ => ty

def Block.gradient : Block → Option String
  | .mk _ g _ _ _ _ _ _ _ _ _ _ _ _ _ _ _ _ _ _ _ _ => g

def Block.src : Block → Option String
  | .mk _ _ s _ _ _ _ _ _ _ _ _ _ _ _ _ _ _ _ _ _ _ => s

def Block.alt : Block → Option String
  | .mk _ _ _ a _ _ _ _ _ _ _ _ _ _ _ _ _ _ _ _ _ _ => a

def Block.items : Block → List Item
  | .mk _ _ _ _ _ _ _ _ _ _ _ _ _ _ _ _ _ it _ _ _ _ => it

/-- JavaScript truthiness of a possibly-missing string. -/
def truthy : Option String → Bool
  | none => false
  | some s => !s.isEmpty

/-- Template-literal interpolation: `undefined` prints as `undefined`. -/
def interp : Option String → String
  | none => "undefined"
  | some s => s

/-- JavaScript `x || d` on a possibly-missing string. -/
def jsOr (x : Option String) (d : String) : String :=
  if truthy x then interp x else d

/-- Helper for `block.style ? \` style="${block.style}"\` : ''` — shared by several
renderers. -/
def styleAttr (style : Option String) : String :=
  if truthy style then " style=\x22" ++ interp style ++ "\x22" else ""

/-- The inline list-item lambda shared (textually duplicated) by
`bulletList` and `numberedList`.  The separator between lead and text is
the literal three-character sequence U+201A U+00C4 U+00EE found in the
source file (a mojibake en/em-dash), transcribed byte-for-byte. -/
def renderListItem : Item → String
  | Item.str s => "<li>" ++ processInlineFormatting (some s) ++ "</li>"
  | Item.obj lead txt =>
    "<li><strong>" ++ interp lead ++ "</strong>" ++
      (if truthy txt then " \u201A\u00C4\u00EE " ++ interp txt else "") ++ "</li>"

/-- The keys of the `BlockRenderers` dispatch object, in source order. -/
def rendererKeys : List String :=
  ["cover", "icon", "h1", "h2", "h3", "paragraph", "callout", "bulletList",
   "numberedList", "quote", "divider", "columns", "threeColumns", "toggle",
   "numberedToggle", "button", "link", "code", "image", "gallery", "toc",
   "spacer", "centered", "html"]

/-- Property names every plain object literal inherits from
`Object.prototype`.  `BlockRenderers[block.type]` is an ordinary
JavaScript property lookup, so when `block.type` is one of these the
lookup yields the inherited member (a truthy value), the `!renderer`
guard is bypassed, and `renderer(block)` is invoked. -/
def objectProtoKeys : List String :=
  ["constructor", "hasOwnProperty", "isPrototypeOf", "propertyIsEnumerable",
   "toLocaleString", "toString", "valueOf", "__proto__", "__defineGetter__",
   "__defineSetter__", "__lookupGetter__", "__lookupSetter__"]

/-- The JavaScript value a renderer call returns, as far as the model
distinguishes it: an ordinary string, a boolean, a non-string object
(recorded by what `String()` coercion prints for it), or `undefined`. -/
inductive JsValue : Type where
  | str (s : String)
  | boolean (b : Bool)
  | object (tag : String)
  | undef
deriving DecidableEq

/-- Element coercion of `Array.prototype.join`: strings pass through,
`undefined` joins as the empty string, booleans and objects contribute
their `String()` form. -/
def jsJoinString : JsValue → String
  | .str s => s
  | .boolean b => if b then "true" else "false"
  | .object tag => tag
  | .undef => ""

deriving instance DecidableEq for Except

/-- A `gallery` card's HTML (template literal of the `gallery` renderer). -/
def renderCard (c : Card) : String :=
  "\n<div class=\x22gallery-card\x22" ++
    (if truthy c.href then " onclick=\x22window.location=\x27" ++ interp c.href ++ "\x27\x22"
     else "") ++ ">\n    " ++
    (if truthy c.cover then
      "<img class=\x22gallery-cover\x22 src=\x22" ++ interp c.cover ++ "\x22 alt=\x22" ++
        interp c.title ++ "\x22>"
     else "") ++
    "\n    <div class=\x22gallery-content\x22>\n        <div class=\x22gallery-title\x22>" ++
    jsOr c.icon "" ++ " " ++ interp c.title ++ "</div>\n        " ++
    (if truthy c.subtitle then
      "<div class=\x22gallery-subtitle\x22>" ++ interp c.subtitle ++ "</div>"
     else "") ++
    "\n        " ++
    (if truthy c.description then
      "<div class=\x22gallery-description\x22>" ++ interp c.description ++ "</div>"
     else "") ++
    "\n    </div>\n</div>"

/-- The `cover` renderer (lines 34-39): a truthy gradient wins; otherwise an
`<img>` from `src`. -/
def coverR (gradient src alt : Option String) : String :=
  if truthy gradient then
    "<div class=\x22cover-image\x22 style=\x22background: " ++ interp gradient ++
      "; height: 30vh;\x22></div>"
  else
    "<img src=\x22" ++ interp src ++ "\x22 class=\x22cover-image\x22 alt=\x22" ++
      jsOr alt "" ++ "\x22>"

/-- The `icon` renderer (lines 42-48).  It re-reads `block.type`, which is
`"icon"` whenever the dispatcher selected it, so the first two checks
are dead there; they are kept as written. -/
def iconR (ty : String) (src emoji : Option String) : String :=
  if ty = "none" then ""
  else if ty = "image" then
    "<div class=\x22page-icon\x22><img src=\x22" ++ interp src ++ "\x22 alt=\x22\x22></div>"
  else "<div class=\x22page-icon\x22>" ++ interp emoji ++ "</div>"

def h1R (style text : Option String) : String :=
  "<h1 class=\x22page-title\x22" ++ styleAttr style ++ ">" ++ interp text ++ "</h1>"

def h2R (style text : Option String) : String :=
  "<h2" ++ styleAttr style ++ ">" ++ interp text ++ "</h2>"

def h3R (style text : Option String) : String :=
  "<h3" ++ styleAttr style ++ ">" ++ interp text ++ "</h3>"

def paragraphR (style text : Option String) : String :=
  "<p" ++ styleAttr style ++ ">" ++ processInlineFormatting text ++ "</p>"

/-- The `bulletList` renderer (lines 85-94). -/
def bulletListR (items : List Item) : String :=
  "<ul>\n" ++ String.intercalate "\n" (items.map renderListItem) ++ "\n</ul>"

/-- The `numberedList` renderer (lines 97-105). -/
def numberedListR (items : List Item) : String :=
  "<ol>\n" ++ String.intercalate "\n" (items.map renderListItem) ++ "\n</ol>"

def quoteR (text attribution : Option String) : String :=
  "<blockquote>" ++ processInlineFormatting text ++
    (if truthy attribution then "<cite>\u201A\u00C4\u00EE " ++ interp attribution ++ "</cite>"
     else "") ++ "</blockquote>"

def buttonR (style href target text : Option String) : String :=
  "<a href=\x22" ++ interp href ++ "\x22 class=\x22notion-button " ++
    jsOr style "primary" ++ "\x22 target=\x22" ++ jsOr target "_self" ++ "\x22>" ++
    interp text ++ "</a>"

def linkR (href text : Option String) : String :=
  "<a href=\x22" ++ interp href ++ "\x22 class=\x22text-link\x22>" ++ interp text ++ "</a>"

/-- The `code` renderer (lines 181-183).  (For a missing `code` field the
JavaScript would throw a `TypeError` inside `escapeHtml`; the model
escapes the interpolated string instead.) -/
def codeR (code : Option String) : String :=
  "<div class=\x22code-block\x22>" ++ escapeHtml (interp code) ++ "</div>"

def imageR (src alt caption : Option String) : String :=
  "<figure class=\x22notion-image\x22><img src=\x22" ++ interp src ++ "\x22 alt=\x22" ++
    jsOr alt "" ++ "\x22>" ++
    (if truthy caption then "<figcaption>" ++ interp caption ++ "</figcaption>"
     else "") ++ "</figure>"

def galleryR (cards : List Card) : String :=
  "<div class=\x22gallery-grid\x22>\n" ++
    String.intercalate "\n" (cards.map renderCard) ++ "\n</div>"

def tocR : String :=
  "<nav class=\x22notion-toc\x22><div class=\x22toc-title\x22>On this page</div><div id=\x22toc-links\x22></div></nav>"

def spacerR (height : Option String) : String :=
  "<div style=\x22height: " ++ jsOr height "24px" ++ ";\x22></div>"

/-- The `html` escape hatch returns `block.content` unchanged; non-string
content is modelled as the empty string (`Array.prototype.join` renders
such values as empty when the page is assembled). -/
def htmlR (content : BContent) : String :=
  match content with
  | BContent.str s => s
  | _ => ""

mutual

/-- Dispatcher `renderBlock` (page generator, lines 247-254).
`BlockRenderers[block.type]` is an ordinary JavaScript property lookup on
a plain object literal: it finds the 24 own keys first, then the members
inherited from `Object.prototype`; only when both miss is the result
`undefined`, making the `!renderer` guard emit the diagnostic comment and
the `console.warn` message.  The result models the outcome of the call:
`Except.error m` is a thrown `TypeError` (the value looked up under `m`
is either not callable or rejects its argument), and `Except.ok` pairs
the returned JavaScript value with the warnings logged during a completed
call.  Outcomes of the inherited members are modelled from sloppy-mode
semantics — the script has no `use strict`, so a plain call binds `this`
to the global object: `constructor` is `Object`, and `Object(block)`
returns the block itself; the three predicate members return `false` for
the key `String(block)`; `toString`/`toLocaleString` return the global
object's tag string; `valueOf` returns the global object; the two lookup
members find no accessor and return `undefined`; `__proto__` yields the
non-callable `Object.prototype`, and `__defineGetter__`/
`__defineSetter__` receive `undefined` for their function parameter, so
those three calls throw. -/
def renderBlock : Block → Except String (JsValue × List String)
  | Block.mk ty gradient src alt emoji style text icon background attribution
      title number href target code caption height items cards content
      columns blocks =>
    if ty = "cover" then .ok (.str (coverR gradient src alt), [])
    else if ty = "icon" then .ok (.str (iconR ty src emoji), [])
    else if ty = "h1" then .ok (.str (h1R style text), [])
    else if ty = "h2" then .ok (.str (h2R style text), [])
    else if ty = "h3" then .ok (.str (h3R style text), [])
    else if ty = "paragraph" then .ok (.str (paragraphR style text), [])
    else if ty = "callout" then
      match calloutR icon background content with
      | .error e => .error e
      | .ok p => .ok (.str p.1, p.2)
    else if ty = "bulletList" then .ok (.str (bulletListR items), [])
    else if ty = "numberedList" then .ok (.str (numberedListR items), [])
    else if ty = "quote" then .ok (.str (quoteR text attribution), [])
    else if ty = "divider" then .ok (.str "<hr>", [])
    else if ty = "columns" then
      match columnsR columns with
      | .error e => .error e
      | .ok p => .ok (.str p.1, p.2)
    else if ty = "threeColumns" then
      match threeColumnsR columns with
      | .error e => .error e
      | .ok p => .ok (.str p.1, p.2)
    else if ty = "toggle" then
      match toggleR title content with
      | .error e => .error e
      | .ok p => .ok (.str p.1, p.2)
    else if ty = "numberedToggle" then
      match numberedToggleR number title content with
      | .error e => .error e
      | .ok p => .ok (.str p.1, p.2)
    else if ty = "button" then .ok (.str (buttonR style href target text), [])
    else if ty = "link" then .ok (.str (linkR href text), [])
    else if ty = "code" then .ok (.str (codeR code), [])
    else if ty = "image" then .ok (.str (imageR src alt caption), [])
    else if ty = "gallery" then .ok (.str (galleryR cards), [])
    else if ty = "toc" then .ok (.str tocR, [])
    else if ty = "spacer" then .ok (.str (spacerR height), [])
    else if ty = "centered" then
      match centeredR blocks with
      | .error e => .error e
      | .ok p => .ok (.str p.1, p.2)
    else if ty = "html" then .ok (.str (htmlR content), [])
    else if ty = "constructor" then .ok (.object "[object Object]", [])
    else if ty = "hasOwnProperty" then .ok (.boolean false, [])
    else if ty = "isPrototypeOf" then .ok (.boolean false, [])
    else if ty = "propertyIsEnumerable" then .ok (.boolean false, [])
    else if ty = "toString" then .ok (.str "[object global]", [])
    else if ty = "toLocaleString" then .ok (.str "[object global]", [])
    else if ty = "valueOf" then .ok (.object "[object global]", [])
    else if ty = "__lookupGetter__" then .ok (.undef, [])
    else if ty = "__lookupSetter__" then .ok (.undef, [])
    else if ty = "__proto__" then .error "__proto__"
    else if ty = "__defineGetter__" then .error "__defineGetter__"
    else if ty = "__defineSetter__" then .error "__defineSetter__"
    else
      .ok (.str ("<!-- Unknown block type: " ++ ty ++ " -->"),
        ["Unknown block type: " ++ ty])

/-- The `callout` renderer (lines 75-82): nested blocks are rendered
recursively and joined with newlines; string content gets the
`callout-content` wrapper.  A throw from a nested block propagates. -/
def calloutR (icon background : Option String) (content : BContent) :
    Except String (String × List String) :=
  let ic := if truthy icon then "<div class=\x22callout-icon\x22>" ++ interp icon ++ "</div>"
            else ""
  let bg := if truthy background then
              " style=\x22background: " ++ interp background ++ ";\x22"
            else ""
  match content with
  | BContent.arr bs =>
    match renderBList bs with
    | .error e => .error e
    | .ok rs =>
      .ok ("<div class=\x22callout\x22" ++ bg ++ ">" ++ ic ++
        String.intercalate "\n" (rs.map (fun r => jsJoinString r.1)) ++ "</div>",
        (rs.map Prod.snd).flatten)
  | BContent.str s =>
    .ok ("<div class=\x22callout\x22" ++ bg ++ ">" ++ ic ++
      "<div class=\x22callout-content\x22>" ++ processInlineFormatting (some s) ++
      "</div></div>", [])
  | BContent.undef =>
    .ok ("<div class=\x22callout\x22" ++ bg ++ ">" ++ ic ++
      "<div class=\x22callout-content\x22>" ++ processInlineFormatting none ++
      "</div></div>", [])

/-- The `columns` renderer (lines 117-124). -/
def columnsR (columns : List Column) : Except String (String × List String) :=
  match renderColsList columns with
  | .error e => .error e
  | .ok cols =>
    .ok ("<div class=\x22notion-row\x22>\n" ++
      String.intercalate "\n" (cols.map Prod.fst) ++ "\n</div>",
      (cols.map Prod.snd).flatten)

/-- The `threeColumns` renderer (lines 127-133). -/
def threeColumnsR (columns : List Column) : Except String (String × List String) :=
  match renderCols3List columns with
  | .error e => .error e
  | .ok cols =>
    .ok ("<div class=\x22notion-row-3\x22>\n" ++
      String.intercalate "\n" (cols.map Prod.fst) ++ "\n</div>",
      (cols.map Prod.snd).flatten)

/-- The `toggle` renderer (lines 136-150); the summary triangle is the
literal three-character sequence U+201A U+00F1 U+2202 found in the
source. -/
def toggleR (title : Option String) (content : BContent) :
    Except String (String × List String) :=
  match renderToggleContent content with
  | .error e => .error e
  | .ok cnt =>
    .ok ("\n<details class=\x22notion-toggle\x22>\n    <summary>\n        <div class=\x22toggle-triangle\x22>\u201A\u00F1\u2202</div>\n        <span>" ++
      interp title ++
      "</span>\n    </summary>\n    <div class=\x22toggle-content\x22>\n        " ++
      cnt.1 ++ "\n    </div>\n</details>", cnt.2)

/-- The `numberedToggle` renderer (lines 153-167). -/
def numberedToggleR (number title : Option String) (content : BContent) :
    Except String (String × List String) :=
  match renderToggleContent content with
  | .error e => .error e
  | .ok cnt =>
    .ok ("\n<details class=\x22notion-toggle numbered-toggle\x22>\n    <summary>\n        <div class=\x22toggle-number\x22>" ++
      interp number ++ "</div>\n        <span>" ++ interp title ++
      "</span>\n    </summary>\n    <div class=\x22toggle-content\x22>\n        " ++
      cnt.1 ++ "\n    </div>\n</details>", cnt.2)

/-- The `centered` renderer (lines 217-220). -/
def centeredR (blocks : List Block) : Except String (String × List String) :=
  match renderBList blocks with
  | .error e => .error e
  | .ok rs =>
    .ok ("<div class=\x22centered-block\x22>\n" ++
      String.intercalate "\n" (rs.map (fun r => jsJoinString r.1)) ++ "\n</div>",
      (rs.map Prod.snd).flatten)

/-- Model of `blocks.map(renderBlock)`: elements are rendered left to
right and the first thrown `TypeError` aborts the whole map. -/
def renderBList : List Block → Except String (List (JsValue × List String))
  | [] => .ok []
  | b :: bs =>
    match renderBlock b with
    | .error e => .error e
    | .ok r =>
      match renderBList bs with
      | .error e => .error e
      | .ok rs => .ok (r :: rs)

/-- Columns of the `columns` renderer (`notion-col`, optional style). -/
def renderColsList : List Column → Except String (List (String × List String))
  | [] => .ok []
  | Column.mk style bs :: rest =>
    match renderBList bs with
    | .error e => .error e
    | .ok rs =>
      match renderColsList rest with
      | .error e => .error e
      | .ok others =>
        .ok (("<div class=\x22notion-col\x22" ++ styleAttr style ++ ">\n" ++
          String.intercalate "\n" (rs.map (fun r => jsJoinString r.1)) ++ "\n</div>",
          (rs.map Prod.snd).flatten) :: others)

/-- Columns of the `threeColumns` renderer (`notion-col-3`, no style). -/
def renderCols3List : List Column → Except String (List (String × List String))
  | [] => .ok []
  | Column.mk _ bs :: rest =>
    match renderBList bs with
    | .error e => .error e
    | .ok rs =>
      match renderCols3List rest with
      | .error e => .error e
      | .ok others =>
        .ok (("<div class=\x22notion-col-3\x22>\n" ++
          String.intercalate "\n" (rs.map (fun r => jsJoinString r.1)) ++ "\n</div>",
          (rs.map Prod.snd).flatten) :: others)

/-- The `toggle`/`numberedToggle` content: an array of blocks joined by
newlines, or a paragraph of inline-formatted text. -/
def renderToggleContent : BContent → Except String (String × List String)
  | BContent.arr bs =>
    match renderBList bs with
    | .error e => .error e
    | .ok rs =>
      .ok (String.intercalate "\n" (rs.map (fun r => jsJoinString r.1)),
        (rs.map Prod.snd).flatten)
  | BContent.str s => .ok ("<p>" ++ processInlineFormatting (some s) ++ "</p>", [])
  | BContent.undef => .ok ("<p>" ++ processInlineFormatting none ++ "</p>", [])

end

/-! ## Supporting lemmas -/

lemma goScan_id (step : List Char → Option (List Char × List Char)) :
    ∀ (l : List Char), scanMatches step l = false →
      ∀ fuel, goScan step fuel l = l := by
  intro l
  induction l with
  | nil =>
    intro _ fuel
    cases fuel <;> rfl
  | cons c rest ih =>
    intro h fuel
    have h' : (step (c :: rest)).isSome = false ∧ scanMatches step rest = false := by
      simpa [scanMatches, Bool.or_eq_false_iff] using h
    have h1 : step (c :: rest) = none := Option.not_isSome_iff_eq_none.mp (by simp [h'.1])
    cases fuel with
    | zero => rfl
    | succ f => simp [goScan, h1, ih h'.2 f]

lemma runScan_id (step : List Char → Option (List Char × List Char))
    (l : List Char) (h : scanMatches step l = false) : runScan step l = l :=
  goScan_id step l h (l.length + 1)

lemma renderBList_append_ok (xs ys : List Block)
    (rx ry : List (JsValue × List String))
    (hx : renderBList xs = Except.ok rx) (hy : renderBList ys = Except.ok ry) :
    renderBList (xs ++ ys) = Except.ok (rx ++ ry) := by
  induction xs generalizing rx with
  | nil =>
    simp only [renderBList] at hx
    cases hx
    simpa using hy
  | cons b bs ih =>
    simp only [renderBList] at hx
    cases hrb : renderBlock b with
    | error e => rw [hrb] at hx; cases hx
    | ok r =>
      rw [hrb] at hx
      cases hrbs : renderBList bs with
      | error e => rw [hrbs] at hx; cases hx
      | ok rs =>
        rw [hrbs] at hx
        cases hx
        simp only [List.cons_append, renderBList, hrb, ih rs hrbs]

/-- The four characters whose behaviour distinguishes the two escape
helpers and breaks idempotence. -/
def isSpecialChar (c : Char) : Bool :=
  c = '&' ∨ c = '<' ∨ c = '>' ∨ c = '\x22'

lemma escapeHtmlChar_of_not_special (c : Char) (h : isSpecialChar c = false) :
    escapeHtmlChar c = [c] := by
  have h' : ¬c = '&' ∧ ¬c = '<' ∧ ¬c = '>' ∧ ¬c = '\x22' := by
    simpa [isSpecialChar, Bool.or_eq_false_iff] using h
  simp [escapeHtmlChar, h'.1, h'.2.1, h'.2.2.1, h'.2.2.2]

lemma mdEscapeChar_eq_escapeHtmlChar (c : Char) (h : ¬c = '\x22') :
    mdEscapeChar c = escapeHtmlChar c := by
  by_cases hamp : c = '&'
  · subst hamp; rfl
  · by_cases hlt : c = '<'
    · subst hlt; rfl
    · by_cases hgt : c = '>'
      · subst hgt; rfl
      · simp [mdEscapeChar, escapeHtmlChar, hamp, hlt, hgt, h]

lemma mdEscapeChar_length_le (c : Char) :
    (mdEscapeChar c).length ≤ (escapeHtmlChar c).length := by
  by_cases hq : c = '\x22'
  · subst hq; simp [mdEscapeChar, escapeHtmlChar]
  · rw [mdEscapeChar_eq_escapeHtmlChar c hq]

lemma mdEscape_length_le (l : List Char) :
    (mdEscape l).length ≤ (escapeHtmlL l).length := by
  induction l with
  | nil => simp [mdEscape, escapeHtmlL, replaceChar]
  | cons c rest ih =>
    rw [mdEscape_cons, escapeHtmlL_cons]
    simp only [List.length_append]
    exact Nat.add_le_add (mdEscapeChar_length_le c) ih

lemma mdEscape_length_lt (l : List Char) (h : '\x22' ∈ l) :
    (mdEscape l).length < (escapeHtmlL l).length := by
  induction l with
  | nil => cases h
  | cons c rest ih =>
    rw [mdEscape_cons, escapeHtmlL_cons]
    simp only [List.length_append]
    by_cases hq : c = '\x22'
    · subst hq
      have : (mdEscapeChar '\x22').length < (escapeHtmlChar '\x22').length := by decide
      exact Nat.add_lt_add_of_lt_of_le this (mdEscape_length_le rest)
    · have hmem : '\x22' ∈ rest := by
        rcases List.mem_cons.mp h with h' | h'
        · exact absurd h'.symm hq
        · exact h'
      rw [mdEscapeChar_eq_escapeHtmlChar c hq]
      exact Nat.add_lt_add_left (ih hmem) _

lemma escapeHtmlChar_length_ge (c : Char) : 1 ≤ (escapeHtmlChar c).length := by
  by_cases hamp : c = '&'
  · subst hamp; decide
  · by_cases hlt : c = '<'
    · subst hlt; decide
    · by_cases hgt : c = '>'
      · subst hgt; decide
      · by_cases hq : c = '\x22'
        · subst hq; decide
        · simp [escapeHtmlChar, hamp, hlt, hgt, hq]

lemma escapeHtmlL_length_ge (l : List Char) :
    l.length ≤ (escapeHtmlL l).length := by
  induction l with
  | nil => simp [escapeHtmlL, mdEscape, replaceChar]
  | cons c rest ih =>
    rw [escapeHtmlL_cons]
    simp only [List.length_append, List.length_cons]
    have := escapeHtmlChar_length_ge c
    omega

lemma escapeHtmlL_length_lt (l : List Char) (h : l.any isSpecialChar = true) :
    l.length < (escapeHtmlL l).length := by
  induction l with
  | nil => simp at h
  | cons c rest ih =>
    rw [escapeHtmlL_cons]
    simp only [List.length_append, List.length_cons]
    rcases (List.any_eq_true.mp h) with ⟨x, hx, hxs⟩
    rcases List.mem_cons.mp hx with rfl | hxr
    · have h4 : 2 ≤ (escapeHtmlChar x).length := by
        have h' : x = '&' ∨ x = '<' ∨ x = '>' ∨ x = '\x22' := by
          simpa [isSpecialChar] using hxs
        rcases h' with rfl | rfl | rfl | rfl <;> decide
      have := escapeHtmlL_length_ge rest
      omega
    · have hrest : rest.any isSpecialChar = true :=
        List.any_eq_true.mpr ⟨x, hxr, hxs⟩
      have := escapeHtmlChar_length_ge c
      have := ih hrest
      omega

lemma escapeHtmlL_has_special (l : List Char) (h : l.any isSpecialChar = true) :
    (escapeHtmlL l).any isSpecialChar = true := by
  induction l with
  | nil => simp at h
  | cons c rest ih =>
    rw [escapeHtmlL_cons]
    rw [List.any_append]
    rcases (List.any_eq_true.mp h) with ⟨x, hx, hxs⟩
    rcases List.mem_cons.mp hx with rfl | hxr
    · have hleft : (escapeHtmlChar x).any isSpecialChar = true := by
        have h' : x = '&' ∨ x = '<' ∨ x = '>' ∨ x = '\x22' := by
          simpa [isSpecialChar] using hxs
        rcases h' with rfl | rfl | rfl | rfl <;> decide
      simp [hleft]
    · have hrest : rest.any isSpecialChar = true :=
        List.any_eq_true.mpr ⟨x, hxr, hxs⟩
      simp [ih hrest]

lemma escapeHtmlL_id (l : List Char) (h : l.any isSpecialChar = false) :
    escapeHtmlL l = l := by
  induction l with
  | nil => rfl
  | cons c rest ih =>
    have h' : isSpecialChar c = false ∧ rest.any isSpecialChar = false := by
      simpa [Bool.or_eq_false_iff] using h
    rw [escapeHtmlL_cons, escapeHtmlChar_of_not_special c h'.1, ih h'.2]
    rfl

/-- Substring test used to state "contains no `<p></p>`". -/
def hasSub (pat : List Char) : List Char → Bool
  | [] => pat.isEmpty
  | c :: rest => pat.isPrefixOf (c :: rest) || hasSub pat rest

lemma string_mk_data (s : String) : String.mk s.data = s := rfl

lemma mdEscape_eq_escapeHtmlL_of_no_quote (l : List Char) (h : '\x22' ∉ l) :
    mdEscape l = escapeHtmlL l := by
  induction l with
  | nil => rfl
  | cons c rest ih =>
    rw [mdEscape_cons, escapeHtmlL_cons,
      mdEscapeChar_eq_escapeHtmlChar c (fun hc => h (by simp [hc])),
      ih (fun hm => h (List.mem_cons_of_mem _ hm))]

/-! ## Claim theorems -/

/-- Claim C1 (counterexample):  The Markdown input `"1. a\n2. b"` does not
produce `"<ul><li>a</li><li>b</li></ul>"`: by the time the list-merging
pass runs, the newline has already become `<br>`, so the two `<li>`
elements are not adjacent. -/
theorem c1_ordered_list_counterexample :
    markdownToHtml "1. a\n2. b" ≠ "<ul><li>a</li><li>b</li></ul>" := by
  decide

/-- Claim C1 (amended):  `markdownToHtml "1. a\n2. b"` produces exactly
`"<p><ul><li>a</li></ul><br><ul><li>b</li></ul></p>"`: both numbered
lines become `<li>` elements, but the separating newline becomes `<br>`
before the adjacent-`<li>` merging pass, so each `<li>` is wrapped in its
own `<ul>` and the whole result keeps its `<p>` wrapper. -/
theorem c1_ordered_list_actual :
    markdownToHtml "1. a\n2. b" =
      "<p><ul><li>a</li></ul><br><ul><li>b</li></ul></p>" := by
  decide

/-- Claim C3:  The Markdown converter's first step escapes every `&`, `<`,
`>` (character by character) but leaves `"` unescaped, while the block
renderer's `escapeHtml` additionally escapes `"`; hence the two escape
routines disagree on every string containing a double quote and agree on
every string without one. -/
theorem c3_escape_asymmetry (l : List Char) :
    mdEscape l = charwiseEscape mdEscapeChar l ∧
    escapeHtmlL l = charwiseEscape escapeHtmlChar l ∧
    ('\x22' ∈ l → mdEscape l ≠ escapeHtmlL l) ∧
    ('\x22' ∉ l → mdEscape l = escapeHtmlL l) := by
  refine ⟨mdEscape_eq_charwise l, escapeHtmlL_eq_charwise l, ?_,
    mdEscape_eq_escapeHtmlL_of_no_quote l⟩
  intro hmem heq
  have hlt := mdEscape_length_lt l hmem
  rw [heq] at hlt
  exact Nat.lt_irrefl _ hlt

/-- Witness for C3 at concrete inputs. -/
theorem c3_escape_asymmetry_witness :
    mdEscape "a\x22b".data ≠ escapeHtmlL "a\x22b".data ∧
    mdEscape "a&b".data = escapeHtmlL "a&b".data :=
  ⟨(c3_escape_asymmetry "a\x22b".data).2.2.1 (by decide),
   (c3_escape_asymmetry "a&b".data).2.2.2 (by decide)⟩

/-- Claim C4:  The inline formatting transform on
`"**a** *b* `c` [d](e)"` returns exactly
`"<strong>a</strong> <em>b</em> <code>c</code> <a href="e" class="text-link">d</a>"`. -/
theorem c4_inline_round_trip :
    processInlineFormatting (some "**a** *b* \x60c\x60 [d](e)") =
      "<strong>a</strong> <em>b</em> <code>c</code> <a href=\x22e\x22 class=\x22text-link\x22>d</a>" := by
  decide

/-- Claim C6:  `markdownToHtml "# Title\n\nBody **bold**."` yields an
`<h1>` with `Title` immediately followed by a `<p>` whose body holds a
`<strong>` span around `bold`, and the output contains no empty
`<p></p>`. -/
theorem c6_heading_cleanup :
    markdownToHtml "# Title\n\nBody **bold**." =
      "<h1>Title</h1><p>Body <strong>bold</strong>.</p>" ∧
    hasSub "<p></p>".data
      (markdownToHtml "# Title\n\nBody **bold**.").data = false := by
  constructor
  · decide
  · decide

/-- Claim C8:  The inline formatting transform is the identity on every
string in which none of its four patterns (bold pair, italic pair,
backtick span, link) matches, and empty or absent input returns the
empty string. -/
theorem c8_inline_identity (s : String)
    (hb : scanMatches stepBold s.data = false)
    (hi : scanMatches stepItalic s.data = false)
    (hc : scanMatches stepInlineCode s.data = false)
    (hl : scanMatches (stepLink true) s.data = false) :
    processInlineFormatting (some s) = s ∧
    processInlineFormatting (some "") = "" ∧
    processInlineFormatting none = "" := by
  refine ⟨?_, rfl, rfl⟩
  by_cases he : s.isEmpty
  · simp [processInlineFormatting, he, ((String.isEmpty_iff s).mp he).symm]
  · simp only [processInlineFormatting, he, Bool.false_eq_true, if_false]
    rw [runScan_id _ _ hb, runScan_id _ _ hi, runScan_id _ _ hc, runScan_id _ _ hl]

/-- Witness for C8 at `"no markup"`. -/
theorem c8_inline_identity_witness :
    processInlineFormatting (some "no markup") = "no markup" :=
  (c8_inline_identity "no markup" (by decide) (by decide) (by decide)
    (by decide)).1

/-- Claim C9:  `markdownToHtml` is total: every string input (in
particular the empty string and plain text without Markdown syntax)
yields an HTML string. -/
theorem c9_markdown_total :
    markdownToHtml "" = "" ∧
    markdownToHtml "plain" = "<p>plain</p>" ∧
    ∀ s : String, ∃ out : String, markdownToHtml s = out :=
  ⟨by decide, by decide, fun s => ⟨markdownToHtml s, rfl⟩⟩

/-- Claim C10:  `escapeHtml` is not idempotent: on every string containing
one of `&`, `<`, `>`, `"` a second application differs from the first
(the `&` of each produced entity is re-escaped), while on strings
containing none of those characters it is the identity. -/
theorem c10_escapeHtml_not_idempotent (s : String) :
    (s.data.any isSpecialChar = true →
      escapeHtml (escapeHtml s) ≠ escapeHtml s) ∧
    (s.data.any isSpecialChar = false → escapeHtml s = s) := by
  constructor
  · intro h heq
    have hsp : (escapeHtmlL s.data).any isSpecialChar = true :=
      escapeHtmlL_has_special _ h
    have hlt : (escapeHtmlL s.data).length <
        (escapeHtmlL (escapeHtmlL s.data)).length :=
      escapeHtmlL_length_lt _ hsp
    have hdata : escapeHtmlL (escapeHtmlL s.data) = escapeHtmlL s.data :=
      congrArg String.data heq
    rw [hdata] at hlt
    exact Nat.lt_irrefl _ hlt
  · intro h
    show String.mk (escapeHtmlL s.data) = s
    rw [escapeHtmlL_id _ h]

/-- Witness for C10: `<` double-escapes to `&amp;lt;`; `ab` is fixed. -/
theorem c10_escapeHtml_not_idempotent_witness :
    escapeHtml (escapeHtml "<") ≠ escapeHtml "<" ∧
    escapeHtml "ab" = "ab" ∧
    escapeHtml (escapeHtml "<") = "&amp;lt;" :=
  ⟨(c10_escapeHtml_not_idempotent "<").1 (by decide),
   (c10_escapeHtml_not_idempotent "ab").2 (by decide),
   by decide⟩

/-- Claim C2 (counterexample):  The claim quantifies over every block
whose `type` is not a key of the renderer registry, but
`BlockRenderers[block.type]` also finds the members every object inherits
from `Object.prototype`, and those bypass the `!renderer` guard: type
`toString` does not return the diagnostic comment and logs no warning,
type `constructor` returns the block itself (not a string at all), and
type `__proto__` makes `renderBlock` throw a `TypeError` — refuting
"returns (never throws) a string containing an HTML comment … and logs a
console warning". -/
theorem c2_unknown_block_counterexample :
    (Block.mk "toString" none none none none none none none none none none
        none none none none none none [] [] BContent.undef [] []).type ∉
      rendererKeys ∧
    renderBlock (Block.mk "toString" none none none none none none none none
        none none none none none none none none [] [] BContent.undef [] []) ≠
      Except.ok (JsValue.str "<!-- Unknown block type: toString -->",
        ["Unknown block type: toString"]) ∧
    (Block.mk "constructor" none none none none none none none none none none
        none none none none none none [] [] BContent.undef [] []).type ∉
      rendererKeys ∧
    renderBlock (Block.mk "constructor" none none none none none none none
        none none none none none none none none none [] [] BContent.undef []
        []) =
      Except.ok (JsValue.object "[object Object]", []) ∧
    (Block.mk "__proto__" none none none none none none none none none none
        none none none none none none [] [] BContent.undef [] []).type ∉
      rendererKeys ∧
    renderBlock (Block.mk "__proto__" none none none none none none none none
        none none none none none none none none [] [] BContent.undef [] []) =
      Except.error "__proto__" := by
  refine ⟨by decide, ?_, by decide, ?_, by decide, ?_⟩ <;>
    (unfold renderBlock; decide)

/-- Claim C2 (amended):  For every block whose `type` is neither a key of
the renderer registry nor the name of a member inherited from
`Object.prototype`, `renderBlock` returns (never throws) the HTML comment
naming the unknown type together with one `console.warn` message, and
rendering a page's block list treats such a block independently of its
siblings (whenever the siblings themselves render without throwing). -/
theorem c2_unknown_block_amended (b : Block)
    (h1 : b.type ∉ rendererKeys) (h2 : b.type ∉ objectProtoKeys) :
    renderBlock b =
      Except.ok
        (JsValue.str ("<!-- Unknown block type: " ++ b.type ++ " -->"),
         ["Unknown block type: " ++ b.type]) ∧
    ∀ (l1 l2 : List Block) (r1 r2 : List (JsValue × List String)),
      renderBList l1 = Except.ok r1 → renderBList l2 = Except.ok r2 →
      renderBList (l1 ++ b :: l2) =
        Except.ok (r1 ++
          (JsValue.str ("<!-- Unknown block type: " ++ b.type ++ " -->"),
           ["Unknown block type: " ++ b.type]) :: r2) := by
  obtain ⟨ty, g, sr, al, em, st, tx, ic, bg, att, ti, nu, hf, ta, co, ca, hei,
    it, cd, ct, cl, bl⟩ := b
  simp only [Block.type] at h1 h2 ⊢
  have hne1 : ∀ k, k ∈ rendererKeys → ¬ty = k :=
    fun k hk he => h1 (by rw [he]; exact hk)
  have hne2 : ∀ k, k ∈ objectProtoKeys → ¬ty = k :=
    fun k hk he => h2 (by rw [he]; exact hk)
  have hmain : renderBlock (Block.mk ty g sr al em st tx ic bg att ti nu hf ta
      co ca hei it cd ct cl bl) =
      Except.ok
        (JsValue.str ("<!-- Unknown block type: " ++ ty ++ " -->"),
         ["Unknown block type: " ++ ty]) := by
    simp only [renderBlock]
    rw [if_neg (hne1 "cover" (by decide)), if_neg (hne1 "icon" (by decide)),
      if_neg (hne1 "h1" (by decide)), if_neg (hne1 "h2" (by decide)),
      if_neg (hne1 "h3" (by decide)), if_neg (hne1 "paragraph" (by decide)),
      if_neg (hne1 "callout" (by decide)), if_neg (hne1 "bulletList" (by decide)),
      if_neg (hne1 "numberedList" (by decide)), if_neg (hne1 "quote" (by decide)),
      if_neg (hne1 "divider" (by decide)), if_neg (hne1 "columns" (by decide)),
      if_neg (hne1 "threeColumns" (by decide)), if_neg (hne1 "toggle" (by decide)),
      if_neg (hne1 "numberedToggle" (by decide)), if_neg (hne1 "button" (by decide)),
      if_neg (hne1 "link" (by decide)), if_neg (hne1 "code" (by decide)),
      if_neg (hne1 "image" (by decide)), if_neg (hne1 "gallery" (by decide)),
      if_neg (hne1 "toc" (by decide)), if_neg (hne1 "spacer" (by decide)),
      if_neg (hne1 "centered" (by decide)), if_neg (hne1 "html" (by decide)),
      if_neg (hne2 "constructor" (by decide)),
      if_neg (hne2 "hasOwnProperty" (by decide)),
      if_neg (hne2 "isPrototypeOf" (by decide)),
      if_neg (hne2 "propertyIsEnumerable" (by decide)),
      if_neg (hne2 "toString" (by decide)),
      if_neg (hne2 "toLocaleString" (by decide)),
      if_neg (hne2 "valueOf" (by decide)),
      if_neg (hne2 "__lookupGetter__" (by decide)),
      if_neg (hne2 "__lookupSetter__" (by decide)),
      if_neg (hne2 "__proto__" (by decide)),
      if_neg (hne2 "__defineGetter__" (by decide)),
      if_neg (hne2 "__defineSetter__" (by decide))]
  refine ⟨hmain, fun l1 l2 r1 r2 hl1 hl2 => ?_⟩
  refine renderBList_append_ok l1 _ r1 _ hl1 ?_
  simp only [renderBList, hmain, hl2]

/-- Witness for C2 (amended): a `blink` block is in neither key set; it
renders as the diagnostic comment with a warning, and next to a `divider`
sibling in a block list it contributes exactly that comment entry. -/
theorem c2_unknown_block_amended_witness :
    renderBlock (Block.mk "blink" none none none none none none none none none
        none none none none none none none [] [] BContent.undef [] []) =
      Except.ok (JsValue.str "<!-- Unknown block type: blink -->",
        ["Unknown block type: blink"]) ∧
    renderBList
        [Block.mk "divider" none none none none none none none none none none
          none none none none none none [] [] BContent.undef [] [],
         Block.mk "blink" none none none none none none none none none none
          none none none none none none [] [] BContent.undef [] []] =
      Except.ok [(JsValue.str "<hr>", []),
        (JsValue.str "<!-- Unknown block type: blink -->",
         ["Unknown block type: blink"])] := by
  constructor
  · exact (c2_unknown_block_amended _ (by decide) (by decide)).1
  · have hdiv : renderBList
        [Block.mk "divider" none none none none none none none none none none
          none none none none none none [] [] BContent.undef [] []] =
        Except.ok [(JsValue.str "<hr>", [])] := by
      simp only [renderBList]
      unfold renderBlock
      decide
    exact (c2_unknown_block_amended _ (by decide) (by decide)).2
      [Block.mk "divider" none none none none none none none none none none
        none none none none none none [] [] BContent.undef [] []] []
      [(JsValue.str "<hr>", [])] [] hdiv (by simp only [renderBList])

/-- Claim C5 (evaluation at the failing input):  The `bulletList` renderer
on items `["x", {lead:"Y", text:"z"}]` emits newline-separated `<li>`
inside `<ul>`, with the structured item rendered as a bold lead followed
by the literal three-character sequence U+201A U+00C4 U+00EE (the
mojibake found in the source at the place the spec calls an em-dash) —
not the em-dash U+2014 the claim states; an item without `text` renders
only the bold lead. -/
theorem c5_bulletList_mojibake :
    renderBlock (Block.mk "bulletList" none none none none none none none none
        none none none none none none none none
        [Item.str "x", Item.obj (some "Y") (some "z")] [] BContent.undef [] []) =
      Except.ok (JsValue.str
        "<ul>\n<li>x</li>\n<li><strong>Y</strong> \u201A\u00C4\u00EE z</li>\n</ul>", []) ∧
    renderBlock (Block.mk "bulletList" none none none none none none none none
        none none none none none none none none
        [Item.str "x", Item.obj (some "Y") (some "z")] [] BContent.undef [] []) ≠
      Except.ok (JsValue.str
        "<ul>\n<li>x</li>\n<li><strong>Y</strong> \u2014 z</li>\n</ul>", []) ∧
    renderBlock (Block.mk "bulletList" none none none none none none none none
        none none none none none none none none
        [Item.obj (some "Y") none] [] BContent.undef [] []) =
      Except.ok (JsValue.str "<ul>\n<li><strong>Y</strong></li>\n</ul>", []) := by
  refine ⟨?_, ?_, ?_⟩ <;> (unfold renderBlock; decide)

/-- Claim C7 (counterexample):  A cover block whose `gradient` field is
present but empty (`some ""`) is falsy in JavaScript, so the renderer
emits the `<img>` branch using `src` — contradicting the claim that a
present `gradient` always wins. -/
theorem c7_cover_counterexample :
    (Block.mk "cover" (some "") (some "cover.jpg") none none none none none
        none none none none none none none none none [] [] BContent.undef []
        []).gradient.isSome = true ∧
    renderBlock (Block.mk "cover" (some "") (some "cover.jpg") none none none
        none none none none none none none none none none none [] []
        BContent.undef [] []) =
      Except.ok (JsValue.str
        "<img src=\x22cover.jpg\x22 class=\x22cover-image\x22 alt=\x22\x22>", []) := by
  refine ⟨by decide, ?_⟩
  unfold renderBlock
  decide

/-- Claim C7 (amended):  For every cover block whose `gradient` is truthy
(present and non-empty), the renderer emits the fixed-height gradient
`<div>` and ignores `src` (the output does not depend on it); whenever
`gradient` is falsy (absent or empty) it emits the `<img>` using `src`. -/
theorem c7_cover_amended
    (gradient src alt emoji style text icon background attribution title
     number href target code caption height : Option String)
    (items : List Item) (cards : List Card) (content : BContent)
    (columns : List Column) (blocks : List Block) :
    (truthy gradient = true →
      renderBlock (Block.mk "cover" gradient src alt emoji style text icon
          background attribution title number href target code caption height
          items cards content columns blocks) =
        Except.ok (JsValue.str
          ("<div class=\x22cover-image\x22 style=\x22background: " ++
            interp gradient ++ "; height: 30vh;\x22></div>"), [])) ∧
    (truthy gradient = false →
      renderBlock (Block.mk "cover" gradient src alt emoji style text icon
          background attribution title number href target code caption height
          items cards content columns blocks) =
        Except.ok (JsValue.str
          ("<img src=\x22" ++ interp src ++ "\x22 class=\x22cover-image\x22 alt=\x22" ++
            jsOr alt "" ++ "\x22>"), [])) := by
  constructor
  · intro h
    simp [renderBlock, coverR, h]
  · intro h
    simp [renderBlock, coverR, h]

/-- Witness for C7 (amended) at concrete covers. -/
theorem c7_cover_amended_witness :
    renderBlock (Block.mk "cover" (some "red") (some "x.jpg") none none none
        none none none none none none none none none none none [] []
        BContent.undef [] []) =
      Except.ok (JsValue.str
        "<div class=\x22cover-image\x22 style=\x22background: red; height: 30vh;\x22></div>",
       []) ∧
    renderBlock (Block.mk "cover" none (some "x.jpg") none none none none none
        none none none none none none none none none [] [] BContent.undef []
        []) =
      Except.ok (JsValue.str
        "<img src=\x22x.jpg\x22 class=\x22cover-image\x22 alt=\x22\x22>", []) :=
  ⟨(c7_cover_amended (some "red") (some "x.jpg") none none none none none none
      none none none none none none none none [] [] BContent.undef [] []).1
      (by decide),
   (c7_cover_amended none (some "x.jpg") none none none none none none none
      none none none none none none none [] [] BContent.undef [] []).2
      (by decide)⟩

end Portfolio
